import Mathlib

/-!
# Carbon-footprint estimator (`script.js`)

A shallow embedding of the calculator script.  JavaScript numbers are taken
as exact rationals (`ℚ`): rounding of IEEE doubles, `NaN` inside the arithmetic
and the infinities are outside this model.  The page is an explicit state
(`Page`) that the handlers transform; generated markup is represented by the
values interpolated into each template, in template order, rather than by the
locale-dependent text produced by `toLocaleString`.
-/

namespace Science

/-- Object with the four category keys `water, electricity, food, car`, in the
order in which the object literals of the script declare them. -/
structure CategoryMap where
  water : ℚ
  electricity : ℚ
  food : ℚ
  car : ℚ
deriving DecidableEq

/-- The array `Object.values(o)` of a four-category object: insertion order of the keys. -/
def CategoryMap.values (o : CategoryMap) : List ℚ :=
  [o.water, o.electricity, o.food, o.car]

/-- The array `Object.entries(o)` of a four-category object: insertion order of the keys. -/
def CategoryMap.entries (o : CategoryMap) : List (String × ℚ) :=
  [("water", o.water), ("electricity", o.electricity), ("food", o.food), ("car", o.car)]

/-- The constant `GLOBAL_POPULATION = 8_000_000_000`. -/
def GLOBAL_POPULATION : ℚ := 8000000000

/-- The constant `emissionFactors`: water 0.0003, electricity 0.5, food 2.5, car 0.2. -/
def emissionFactors : CategoryMap :=
  { water := 0.0003, electricity := 0.5, food := 2.5, car := 0.2 }

/-- What `parseFloat(field.value)` evaluates to: `NaN` when the text has no
numeric prefix (empty or unparsable), otherwise the parsed number. -/
inductive Parsed where
  | nan : Parsed
  | num (v : ℚ) : Parsed
deriving DecidableEq

/-- JavaScript truthiness of a number: `NaN` and `0` are falsy. -/
def Parsed.truthy : Parsed → Bool
  | .nan => false
  | .num v => decide (v ≠ 0)

/-- The expression `x || 0` on a number `x`. -/
def orZero (x : Parsed) : ℚ :=
  match x.truthy, x with
  | true, .num v => v
  | _, _ => 0

/-- The four form fields, each given by what `parseFloat` makes of its text. -/
structure Form where
  water : Parsed
  electricity : Parsed
  food : Parsed
  car : Parsed
deriving DecidableEq

/-- The `inputs` object literal built at the top of `calculateImpact`. -/
def collectInputs (form : Form) : CategoryMap :=
  { water := orZero form.water
    electricity := orZero form.electricity
    food := orZero form.food
    car := orZero form.car }

/-- Result object of `calculateEmissions`. -/
structure Emissions where
  individual : CategoryMap
  global : CategoryMap
deriving DecidableEq

/-- The function `calculateEmissions(inputs)`. -/
def calculateEmissions (inputs : CategoryMap) : Emissions :=
  let individualEmissions : CategoryMap :=
    { water := inputs.water * emissionFactors.water * 365
      electricity := inputs.electricity * emissionFactors.electricity * 365
      food := inputs.food * emissionFactors.food * 365
      car := inputs.car * emissionFactors.car * 365 }
  let globalEmissions : CategoryMap :=
    { water := individualEmissions.water * GLOBAL_POPULATION
      electricity := individualEmissions.electricity * GLOBAL_POPULATION
      food := individualEmissions.food * GLOBAL_POPULATION
      car := individualEmissions.car * GLOBAL_POPULATION }
  { individual := individualEmissions, global := globalEmissions }

/-- The reduction `xs.reduce((a, b) => a + b, 0)`. -/
def sumValues (xs : List ℚ) : ℚ :=
  xs.foldl (fun a b => a + b) 0

/-- The array `Array.from({length: n}, (_, i) => f(i))`. -/
def arrayFrom {α : Type} (n : ℕ) (f : ℕ → α) : List α :=
  (List.range n).map f

/-- Result object of `calculateProjections`. -/
structure Projections where
  temp : List ℚ
  sea : List ℚ
deriving DecidableEq

/-- The function `calculateProjections(globalEmissions)`. -/
def calculateProjections (globalEmissions : CategoryMap) : Projections :=
  let totalEmission := sumValues globalEmissions.values
  let baseTemp := 1.2 + (totalEmission / 1e15 * 0.1)
  let baseSea := 0.2 + (totalEmission / 1e15 * 0.01)
  { temp := arrayFrom 50 (fun i => baseTemp + (0.02 * (i : ℚ)))
    sea := arrayFrom 50 (fun i => baseSea + (0.003 * (i : ℚ))) }

/-- The built-in `Math.round`: the nearest integer, a half rounding towards `+∞`. -/
def mathRound (x : ℚ) : ℤ :=
  ⌊x + 1 / 2⌋

/-- Insertion step of a stable sort under a JavaScript comparator: the new
element, which preceded every element of the sorted tail in the original
array, moves right only past elements the comparator puts strictly before it. -/
def sortInsert {α : Type} (cmp : α → α → ℚ) (x : α) : List α → List α
  | [] => [x]
  | y :: ys => if cmp x y ≤ 0 then x :: y :: ys else y :: sortInsert cmp x ys

/-- The method `Array.prototype.sort(cmp)`, which the language specifies to be stable. -/
def arraySort {α : Type} (cmp : α → α → ℚ) : List α → List α
  | [] => []
  | x :: xs => sortInsert cmp x (arraySort cmp xs)

/-- The function `getMainProblem(emissions)`: key of the first entry after sorting
the entries by value, descending.  The entry list always has four elements;
the empty case stands for the `undefined` that `[0]` would give. -/
def getMainProblem (emissions : CategoryMap) : String :=
  match arraySort (fun a b => b.2 - a.2) emissions.entries with
  | [] => "undefined"
  | first :: _ => first.1

/-- The object literal indexed inside `showSolutions`, in declaration order. -/
def solutionsTable : List (String × List String) :=
  [ ("electricity", ["태양광 패널 설치하기", "에너지 효율 높은 가전제품 사용하기",
      "사용하지 않는 전기 제품 플러그 뽑기"]),
    ("car", ["대중교통 이용하기", "전기차로 전환하기", "자동차 여럿이 같이 타기"]),
    ("water", ["물 절약 샤워기 설치하기", "빨래할 때 물 재활용하기", "세탁량 30% 줄이기"]),
    ("food", ["채소 위주 식단 가지기", "집에서 직접 음식 만들기", "음식 쓰레기 줄이기"]) ]

/-- The generic list on the right of `||` in `showSolutions`. -/
def defaultSolutions : List String :=
  ["에너지 절약하기", "재활용 실천하기", "친환경 제품 사용하기"]

/-- The lookup `{...}[mainCategory] || [...]` of `showSolutions`: own keys of
the literal only (an array is always truthy, so the fallback is taken exactly
when the key is absent). -/
def selectSolutions (mainCategory : String) : List String :=
  match solutionsTable.lookup mainCategory with
  | some solutions => solutions
  | none => defaultSolutions

/-- One `<li>` of an emission list: label, value handed to the formatter, unit. -/
structure EmissionItem where
  label : String
  value : ℚ
  unit : String
deriving DecidableEq

/-- The function `createEmissionList(data, isGlobal = false)`. -/
def createEmissionList (data : CategoryMap) (isGlobal : Bool) : List EmissionItem :=
  let scale : ℚ → ℚ × String :=
    if isGlobal then fun value => (value / 1e12, " 억 톤") else fun value => (value, " kg")
  [ { label := "물 사용", value := (scale data.water).1, unit := (scale data.water).2 },
    { label := "전기 사용", value := (scale data.electricity).1, unit := (scale data.electricity).2 },
    { label := "식품 소비", value := (scale data.food).1, unit := (scale data.food).2 },
    { label := "차량 이동", value := (scale data.car).1, unit := (scale data.car).2 } ]

/-- The two numbers interpolated by `getComparisonText`. -/
structure Comparison where
  treesPerPerson : ℤ
  totalTrees : ℚ
deriving DecidableEq

/-- The function `getComparisonText(individual, global)`. -/
def getComparisonText (individual : ℚ) (_global : ℚ) : Comparison :=
  let treesPerPerson := mathRound (individual / 22)
  let totalTrees := (treesPerPerson : ℚ) * GLOBAL_POPULATION
  { treesPerPerson := treesPerPerson, totalTrees := totalTrees }

/-- A block of markup inside the results container. -/
inductive Fragment where
  | error (message : String) : Fragment
  | summary (individualList : List EmissionItem) (globalList : List EmissionItem)
      (comparison : Comparison) : Fragment
  | solutions (mainCategory : String) (items : List String) : Fragment
deriving DecidableEq

/-- Configuration handed to `new Chart(ctx, ...)`. -/
structure Chart where
  labels : List ℕ
  temp : List ℚ
  sea : List ℚ
deriving DecidableEq

/-- The page: the form, the content of `#results`, the global `climateChart`
slot and the number of chart instances destroyed so far. -/
structure Page where
  form : Form
  results : List Fragment
  climateChart : Option Chart
  destroyed : ℕ
deriving DecidableEq

/-- The function `showError(message)`: assigns `innerHTML` of `#results`. -/
def showError (message : String) (page : Page) : Page :=
  { page with results := [Fragment.error message] }

/-- The function `displayResults(emissions, projections)`: assigns `innerHTML`. -/
def displayResults (emissions : Emissions) (_projections : Projections) (page : Page) : Page :=
  let totalIndividual := sumValues emissions.individual.values
  let totalGlobal := sumValues emissions.global.values
  let resultsHTML := Fragment.summary (createEmissionList emissions.individual false)
    (createEmissionList emissions.global true) (getComparisonText totalIndividual totalGlobal)
  { page with results := [resultsHTML] }

/-- The function `updateChart(emissions, projections)`: destroy, then replace. -/
def updateChart (_emissions : Emissions) (projections : Projections) (page : Page) : Page :=
  let page1 : Page :=
    match page.climateChart with
    | some _ => { page with destroyed := page.destroyed + 1 }
    | none => page
  { page1 with
    climateChart := some
      { labels := arrayFrom 50 (fun i => 2025 + i)
        temp := projections.temp
        sea := projections.sea } }

/-- The function `showSolutions(mainCategory)`: appends to `innerHTML`. -/
def showSolutions (mainCategory : String) (page : Page) : Page :=
  let solutions := selectSolutions mainCategory
  { page with results := page.results ++ [Fragment.solutions mainCategory solutions] }

/-- The fixed warning passed to `showError`. -/
def allZeroMessage : String := "모든 입력값을 정확히 입력해주세요!"

/-- The function `calculateImpact()`, the click handler. -/
def calculateImpact (page : Page) : Page :=
  let inputs := collectInputs page.form
  if inputs.values.all (fun v => decide (v = 0)) then
    showError allZeroMessage page
  else
    let emissions := calculateEmissions inputs
    let projections := calculateProjections emissions.global
    let page1 := displayResults emissions projections page
    let page2 := updateChart emissions projections page1
    showSolutions (getMainProblem emissions.individual) page2

/-- C1: the individual breakdown is `input * factor * 365` in every category,
with the factors 0.0003, 0.5, 2.5 and 0.2 (exact rational arithmetic). -/
theorem calculateEmissions_individual (inputs : CategoryMap) :
    emissionFactors.water = 3 / 10000 ∧ emissionFactors.electricity = 1 / 2 ∧
    emissionFactors.food = 5 / 2 ∧ emissionFactors.car = 1 / 5 ∧
    (calculateEmissions inputs).individual.water = inputs.water * (3 / 10000) * 365 ∧
    (calculateEmissions inputs).individual.electricity = inputs.electricity * (1 / 2) * 365 ∧
    (calculateEmissions inputs).individual.food = inputs.food * (5 / 2) * 365 ∧
    (calculateEmissions inputs).individual.car = inputs.car * (1 / 5) * 365 := by
  simp only [calculateEmissions, emissionFactors]
  norm_num

/-- C2: every global figure is the individual figure times 8,000,000,000,
for every input set (in particular the non-negative, not all zero ones). -/
theorem calculateEmissions_global (inputs : CategoryMap) :
    GLOBAL_POPULATION = 8000000000 ∧
    (calculateEmissions inputs).global.water
      = (calculateEmissions inputs).individual.water * 8000000000 ∧
    (calculateEmissions inputs).global.electricity
      = (calculateEmissions inputs).individual.electricity * 8000000000 ∧
    (calculateEmissions inputs).global.food
      = (calculateEmissions inputs).individual.food * 8000000000 ∧
    (calculateEmissions inputs).global.car
      = (calculateEmissions inputs).individual.car * 8000000000 := by
  simp [calculateEmissions, GLOBAL_POPULATION]

/-- Entry `i` of an array built by `Array.from`. -/
theorem arrayFrom_getElem? {α : Type} (n : ℕ) (f : ℕ → α) (i : ℕ) (h : i < n) :
    (arrayFrom n f)[i]? = some (f i) := by
  simp [arrayFrom, List.getElem?_map, List.getElem?_range h]

/-- C3: both projections are the unclamped linear formulas in the total of the
four global figures, at every index 0..49. -/
theorem calculateProjections_formula (g : CategoryMap) (i : ℕ) (hi : i < 50) :
    (calculateProjections g).temp[i]?
      = some (1.2 + ((g.water + g.electricity + g.food + g.car) / 1e15) * 0.1 + 0.02 * (i : ℚ)) ∧
    (calculateProjections g).sea[i]?
      = some (0.2 + ((g.water + g.electricity + g.food + g.car) / 1e15) * 0.01 + 0.003 * (i : ℚ)) := by
  simp only [calculateProjections, arrayFrom_getElem? 50 _ i hi, sumValues, CategoryMap.values,
    List.foldl_cons, List.foldl_nil, zero_add, and_self]

theorem calculateProjections_formula_witness :
    49 < 50 ∧
    (calculateProjections ⟨1e15, 0, 0, 0⟩).temp[49]?
      = some (1.2 + (((1e15 : ℚ) + 0 + 0 + 0) / 1e15) * 0.1 + 0.02 * ((49 : ℕ) : ℚ)) ∧
    (calculateProjections ⟨1e15, 0, 0, 0⟩).sea[49]?
      = some (0.2 + (((1e15 : ℚ) + 0 + 0 + 0) / 1e15) * 0.01 + 0.003 * ((49 : ℕ) : ℚ)) :=
  ⟨by decide, calculateProjections_formula ⟨1e15, 0, 0, 0⟩ 49 (by decide)⟩

/-- C4: both projections have exactly 50 entries and consecutive entries
differ by 0.02 (temperature) and 0.003 (sea level); this holds for every
breakdown, whatever the sign of its total. -/
theorem calculateProjections_arithmetic (g : CategoryMap) (i : ℕ) (hi : i < 49) :
    (calculateProjections g).temp.length = 50 ∧ (calculateProjections g).sea.length = 50 ∧
    ∃ t0 t1 s0 s1 : ℚ,
      (calculateProjections g).temp[i]? = some t0 ∧
      (calculateProjections g).temp[i + 1]? = some t1 ∧
      (calculateProjections g).sea[i]? = some s0 ∧
      (calculateProjections g).sea[i + 1]? = some s1 ∧
      t1 - t0 = 0.02 ∧ s1 - s0 = 0.003 := by
  refine ⟨by simp [calculateProjections, arrayFrom], by simp [calculateProjections, arrayFrom], ?_⟩
  have h0 : i < 50 := by omega
  have h1 : i + 1 < 50 := by omega
  simp only [calculateProjections, arrayFrom_getElem? 50 _ i h0, arrayFrom_getElem? 50 _ (i + 1) h1]
  refine ⟨_, _, _, _, rfl, rfl, rfl, rfl, ?_, ?_⟩
  · push_cast; ring
  · push_cast; ring

theorem calculateProjections_arithmetic_witness :
    48 < 49 ∧
    (calculateProjections ⟨3, 1, 4, 1⟩).temp.length = 50 ∧
    (calculateProjections ⟨3, 1, 4, 1⟩).sea.length = 50 ∧
    ∃ t0 t1 s0 s1 : ℚ,
      (calculateProjections ⟨3, 1, 4, 1⟩).temp[48]? = some t0 ∧
      (calculateProjections ⟨3, 1, 4, 1⟩).temp[48 + 1]? = some t1 ∧
      (calculateProjections ⟨3, 1, 4, 1⟩).sea[48]? = some s0 ∧
      (calculateProjections ⟨3, 1, 4, 1⟩).sea[48 + 1]? = some s1 ∧
      t1 - t0 = 0.02 ∧ s1 - s0 = 0.003 :=
  ⟨by decide, calculateProjections_arithmetic ⟨3, 1, 4, 1⟩ 48 (by decide)⟩

/-- Head of a descending stable sort of a non-empty entry list: an entry of
maximal value, at the first position of the input where that value occurs. -/
theorem arraySort_desc_head (x : String × ℚ) (l : List (String × ℚ)) :
    ∃ (i : ℕ) (k : String) (v : ℚ) (rest : List (String × ℚ)),
      arraySort (fun a b => b.2 - a.2) (x :: l) = (k, v) :: rest ∧
      (x :: l)[i]? = some (k, v) ∧
      (∀ p ∈ x :: l, p.2 ≤ v) ∧
      (∀ (j : ℕ) (p : String × ℚ), j < i → (x :: l)[j]? = some p → p.2 < v) := by
  induction l generalizing x with
  | nil =>
    refine ⟨0, x.1, x.2, [], by simp [arraySort, sortInsert], by simp, by simp, ?_⟩
    intro j p hj
    omega
  | cons y l ih =>
    obtain ⟨i, k, v, rest, hsort, hget, hmax, hfirst⟩ := ih y
    by_cases hc : v - x.2 ≤ 0
    · refine ⟨0, x.1, x.2, (k, v) :: rest, ?_, by simp, ?_, ?_⟩
      · rw [arraySort, hsort, sortInsert]
        simp [hc]
      · intro p hp
        rcases List.mem_cons.mp hp with h | h
        · rw [h]
        · have := hmax p h
          linarith
      · intro j p hj
        omega
    · refine ⟨i + 1, k, v, sortInsert (fun a b => b.2 - a.2) x rest, ?_, ?_, ?_, ?_⟩
      · rw [arraySort, hsort, sortInsert]
        simp [hc]
      · simpa using hget
      · intro p hp
        rcases List.mem_cons.mp hp with h | h
        · rw [h]
          linarith
        · exact hmax p h
      · intro j p hj hp
        cases j with
        | zero =>
          simp at hp
          rw [← hp]
          linarith
        | succ j =>
          simp only [List.getElem?_cons_succ] at hp
          exact hfirst j p (by omega) hp

/-- C5: `getMainProblem` returns a key whose value is at least every value of
the breakdown, and the first such key in the order water, electricity, food,
car: every key enumerated before it has a strictly smaller value. -/
theorem getMainProblem_first_max (emissions : CategoryMap) :
    (∃ (i : ℕ) (v : ℚ), emissions.entries[i]? = some (getMainProblem emissions, v) ∧
      (∀ p ∈ emissions.entries, p.2 ≤ v) ∧
      (∀ (j : ℕ) (p : String × ℚ), j < i → emissions.entries[j]? = some p → p.2 < v)) ∧
    emissions.entries.map Prod.fst = ["water", "electricity", "food", "car"] ∧
    getMainProblem ⟨10, 50, 5, 1⟩ = "electricity" ∧
    getMainProblem ⟨10, 10, 0, 0⟩ = "water" := by
  refine ⟨?_, rfl, by norm_num [getMainProblem, arraySort, sortInsert, CategoryMap.entries],
    by norm_num [getMainProblem, arraySort, sortInsert, CategoryMap.entries]⟩
  obtain ⟨i, k, v, rest, hsort, hget, hmax, hfirst⟩ :=
    arraySort_desc_head ("water", emissions.water)
      [("electricity", emissions.electricity), ("food", emissions.food), ("car", emissions.car)]
  refine ⟨i, v, ?_, hmax, hfirst⟩
  have hk : getMainProblem emissions = k := by
    simp only [getMainProblem, CategoryMap.entries]
    rw [hsort]
  rw [hk]
  exact hget

/-- The key returned by `getMainProblem` is one of the four category keys. -/
theorem getMainProblem_mem_keys (emissions : CategoryMap) :
    getMainProblem emissions ∈ ["water", "electricity", "food", "car"] := by
  obtain ⟨i, k, v, rest, hsort, hget, -, -⟩ :=
    arraySort_desc_head ("water", emissions.water)
      [("electricity", emissions.electricity), ("food", emissions.food), ("car", emissions.car)]
  have hk : getMainProblem emissions = k := by
    simp only [getMainProblem, CategoryMap.entries]
    rw [hsort]
  rw [hk]
  have hmem := List.getElem?_mem hget
  simp only [List.mem_cons, Prod.mk.injEq, List.mem_nil_iff, or_false] at hmem ⊢
  rcases hmem with h | h | h | h
  · exact Or.inl h.1
  · exact Or.inr (Or.inl h.1)
  · exact Or.inr (Or.inr (Or.inl h.1))
  · exact Or.inr (Or.inr (Or.inr h.1))

/-- C6: `calculateImpact` shows the warning exactly when all four sanitized
inputs are 0, and then changes nothing but the content of the results
container; otherwise the container holds the summary followed by the
solutions block and the chart slot holds a chart of the new projections. -/
theorem calculateImpact_allZero_path (page : Page) :
    ((calculateImpact page).results = [Fragment.error allZeroMessage] ↔
      ((collectInputs page.form).water = 0 ∧ (collectInputs page.form).electricity = 0 ∧
        (collectInputs page.form).food = 0 ∧ (collectInputs page.form).car = 0)) ∧
    calculateImpact page =
      if (collectInputs page.form).water = 0 ∧ (collectInputs page.form).electricity = 0 ∧
          (collectInputs page.form).food = 0 ∧ (collectInputs page.form).car = 0 then
        { form := page.form
          results := [Fragment.error allZeroMessage]
          climateChart := page.climateChart
          destroyed := page.destroyed }
      else
        { form := page.form
          results :=
            [ Fragment.summary
                (createEmissionList (calculateEmissions (collectInputs page.form)).individual false)
                (createEmissionList (calculateEmissions (collectInputs page.form)).global true)
                (getComparisonText
                  (sumValues (calculateEmissions (collectInputs page.form)).individual.values)
                  (sumValues (calculateEmissions (collectInputs page.form)).global.values)),
              Fragment.solutions
                (getMainProblem (calculateEmissions (collectInputs page.form)).individual)
                (selectSolutions
                  (getMainProblem (calculateEmissions (collectInputs page.form)).individual)) ]
          climateChart := some
            { labels := arrayFrom 50 (fun i => 2025 + i)
              temp := (calculateProjections
                (calculateEmissions (collectInputs page.form)).global).temp
              sea := (calculateProjections
                (calculateEmissions (collectInputs page.form)).global).sea }
          destroyed := if page.climateChart.isSome then page.destroyed + 1 else page.destroyed } := by
  have hall : (collectInputs page.form).values.all (fun v => decide (v = 0)) = true ↔
      ((collectInputs page.form).water = 0 ∧ (collectInputs page.form).electricity = 0 ∧
        (collectInputs page.form).food = 0 ∧ (collectInputs page.form).car = 0) := by
    simp [CategoryMap.values]
  by_cases hz : (collectInputs page.form).water = 0 ∧ (collectInputs page.form).electricity = 0 ∧
      (collectInputs page.form).food = 0 ∧ (collectInputs page.form).car = 0
  · have hb := hall.mpr hz
    simp only [calculateImpact, hb, if_true, showError, hz, and_self, true_and, iff_true]
  · have hb : ¬ (collectInputs page.form).values.all (fun v => decide (v = 0)) = true :=
      fun h => hz (hall.mp h)
    simp only [calculateImpact, hb, hz, if_false, iff_false]
    cases hc : page.climateChart <;>
      simp [showSolutions, updateChart, displayResults, hc]

/-- C7 fails as stated: a field whose text parses to -5 reaches
`calculateEmissions` as -5, not as 0. -/
theorem collectInputs_negative_passes :
    (collectInputs ⟨Parsed.num (-5), Parsed.nan, Parsed.nan, Parsed.nan⟩).water = -5 ∧
    ¬ (0 ≤ (collectInputs ⟨Parsed.num (-5), Parsed.nan, Parsed.nan, Parsed.nan⟩).water) ∧
    (collectInputs ⟨Parsed.num (-5), Parsed.nan, Parsed.nan, Parsed.nan⟩).water ≠ 0 := by
  norm_num [collectInputs, orZero, Parsed.truthy]

/-- C7 (amended): each input handed to `calculateEmissions` is `0` when the
field is not numeric and is the parsed number itself otherwise, whatever its
sign; so it is non-negative exactly when the parsed number is. -/
theorem collectInputs_sanitized (form : Form) :
    collectInputs form
      = ⟨orZero form.water, orZero form.electricity, orZero form.food, orZero form.car⟩ ∧
    orZero Parsed.nan = 0 ∧
    (∀ v : ℚ, orZero (Parsed.num v) = v) ∧
    (∀ v : ℚ, 0 ≤ orZero (Parsed.num v) ↔ 0 ≤ v) := by
  have h : ∀ v : ℚ, orZero (Parsed.num v) = v := by
    intro v
    by_cases hv : v = 0
    · simp [orZero, Parsed.truthy, hv]
    · simp [orZero, Parsed.truthy, hv]
  refine ⟨rfl, by simp [orZero, Parsed.truthy], h, ?_⟩
  intro v
  rw [h v]

/-- C8: the key returned by `getMainProblem` is one of the four category keys,
it is a key of the table of `showSolutions`, so the generic fallback is not
taken, and the list selected for it has exactly 3 entries. -/
theorem showSolutions_known_category (emissions : CategoryMap) :
    getMainProblem emissions ∈ ["water", "electricity", "food", "car"] ∧
    solutionsTable.lookup (getMainProblem emissions)
      = some (selectSolutions (getMainProblem emissions)) ∧
    selectSolutions (getMainProblem emissions) ≠ defaultSolutions ∧
    (selectSolutions (getMainProblem emissions)).length = 3 := by
  have hmem := getMainProblem_mem_keys emissions
  refine ⟨hmem, ?_⟩
  simp only [List.mem_cons, List.mem_nil_iff, or_false] at hmem
  rcases hmem with h | h | h | h <;> rw [h] <;>
    simp [selectSolutions, solutionsTable, defaultSolutions, List.lookup]

/-- C9: the comparison block written by `displayResults` carries
`treesPerPerson`, the integer nearest to the sum of the four individual
values divided by 22, and `totalTrees = treesPerPerson * 8,000,000,000`;
a total of 2200 gives 100 trees per person. -/
theorem displayResults_trees (emissions : Emissions) (projections : Projections) (page : Page) :
    (∃ individualList globalList comparison,
      (displayResults emissions projections page).results
        = [Fragment.summary individualList globalList comparison] ∧
      comparison.treesPerPerson
        = round ((emissions.individual.water + emissions.individual.electricity
            + emissions.individual.food + emissions.individual.car) / 22) ∧
      |(emissions.individual.water + emissions.individual.electricity
            + emissions.individual.food + emissions.individual.car) / 22
          - (comparison.treesPerPerson : ℚ)| ≤ 1 / 2 ∧
      comparison.totalTrees = (comparison.treesPerPerson : ℚ) * 8000000000) ∧
    (∀ totalGlobal : ℚ, (getComparisonText 2200 totalGlobal).treesPerPerson = 100) ∧
    (∀ totalGlobal : ℚ,
      (getComparisonText (sumValues (CategoryMap.values ⟨200, 500, 1000, 500⟩))
        totalGlobal).treesPerPerson = 100) := by
  refine ⟨⟨_, _, _, rfl, ?_, ?_, ?_⟩, ?_, ?_⟩
  · simp only [getComparisonText, mathRound, sumValues, CategoryMap.values, List.foldl_cons,
      List.foldl_nil, zero_add]
    rw [round_eq]
  · simp only [getComparisonText, mathRound, sumValues, CategoryMap.values, List.foldl_cons,
      List.foldl_nil, zero_add]
    rw [← round_eq]
    exact abs_sub_round _
  · simp [getComparisonText, GLOBAL_POPULATION]
  · intro totalGlobal
    simp only [getComparisonText, mathRound]
    rw [Int.floor_eq_iff]
    norm_num
  · intro totalGlobal
    simp only [getComparisonText, mathRound, sumValues, CategoryMap.values, List.foldl_cons,
      List.foldl_nil, zero_add]
    rw [Int.floor_eq_iff]
    norm_num

/-- C10: for the input water 100, electricity 10, food 2, car 5 the individual
electricity figure is 1825 and the water figure 10.95, no individual figure
exceeds 1825, `getMainProblem` returns electricity and the list selected by
`showSolutions` is the three-item electricity list. -/
theorem endToEnd_example :
    (calculateEmissions ⟨100, 10, 2, 5⟩).individual.electricity = 1825 ∧
    (calculateEmissions ⟨100, 10, 2, 5⟩).individual.water = 10.95 ∧
    (∀ v ∈ (calculateEmissions ⟨100, 10, 2, 5⟩).individual.values, v ≤ 1825) ∧
    getMainProblem (calculateEmissions ⟨100, 10, 2, 5⟩).individual = "electricity" ∧
    selectSolutions (getMainProblem (calculateEmissions ⟨100, 10, 2, 5⟩).individual)
      = ["태양광 패널 설치하기", "에너지 효율 높은 가전제품 사용하기",
          "사용하지 않는 전기 제품 플러그 뽑기"] ∧
    (∀ page : Page,
      (showSolutions (getMainProblem (calculateEmissions ⟨100, 10, 2, 5⟩).individual) page).results
        = page.results ++ [Fragment.solutions "electricity"
            ["태양광 패널 설치하기", "에너지 효율 높은 가전제품 사용하기",
              "사용하지 않는 전기 제품 플러그 뽑기"]]) := by
  have hmain : getMainProblem (calculateEmissions ⟨100, 10, 2, 5⟩).individual = "electricity" := by
    norm_num [getMainProblem, arraySort, sortInsert, CategoryMap.entries, calculateEmissions,
      emissionFactors]
  have hsel : selectSolutions "electricity"
      = ["태양광 패널 설치하기", "에너지 효율 높은 가전제품 사용하기",
          "사용하지 않는 전기 제품 플러그 뽑기"] := by
    simp [selectSolutions, solutionsTable, List.lookup]
  refine ⟨?_, ?_, ?_, hmain, ?_, ?_⟩
  · norm_num [calculateEmissions, emissionFactors]
  · norm_num [calculateEmissions, emissionFactors]
  · norm_num [calculateEmissions, emissionFactors, CategoryMap.values]
  · rw [hmain, hsel]
  · intro page
    rw [hmain]
    simp only [showSolutions, hsel]

end Science
